import Mathlib

/-!
Shallow embedding of the `fceux` safe wrapper (`src/src/lib.rs`) over the
native libfceux core.  The wrapper's own mutable state is the pair of
statics `INITIALIZED : bool` and `HOOK` (a slot holding either the dummy
hook or a user closure); every native call is represented by an oracle
parameter carrying the value the native core returns (status codes,
buffer contents, hook invocation addresses), since the native core is an
external collaborator with a fixed C ABI.  Fallible wrapper operations
return `Except String Unit`, with the exact error strings of the source.
-/

namespace Fceux

/-- The P register wrapper (`struct RegP(u8)`); the byte is kept as a `Nat`
below 256. -/
structure RegP where
  val : Nat
  deriving DecidableEq, Repr

/-- `RegP::carry`: `(self.0 & (1 << 0)) != 0`. -/
def RegP.carry (p : RegP) : Bool := (p.val &&& (1 <<< 0)) != 0

/-- `RegP.zero`: `(self.0 & (1 << 1)) != 0`. -/
def RegP.zero (p : RegP) : Bool := (p.val &&& (1 <<< 1)) != 0

/-- `RegP::overflow`: `(self.0 & (1 << 6)) != 0`. -/
def RegP.overflow (p : RegP) : Bool := (p.val &&& (1 <<< 6)) != 0

/-- `RegP::negative`: `(self.0 & (1 << 7)) != 0`. -/
def RegP.negative (p : RegP) : Bool := (p.val &&& (1 <<< 7)) != 0

/-- `pub fn reg_p() -> RegP`: wraps the byte the native `fceux_reg_p()`
returns. -/
def reg_p (nativeP : Nat) : RegP := ⟨nativeP⟩

/-- The value held by the global `HOOK` slot: either the address of
`hook_dummy` or a caller-supplied closure (identified by a tag, standing
for the raw `*const dyn FnMut(u16)` pointer). -/
inductive HookSlot where
  | dummy
  | user (id : Nat)
  deriving DecidableEq, Repr

/-- The wrapper's global mutable state: the statics `INITIALIZED` and
`HOOK` of `src/src/lib.rs`, plus whether `fceux_hook_before_exec` has been
called to install the FFI trampoline with the native core. -/
structure Globals where
  initialized : Bool
  hook : HookSlot
  nativeHookInstalled : Bool
  deriving DecidableEq, Repr

/-- The statics' initial values: `INITIALIZED = false`,
`HOOK = Hook { f: UnsafeCell::new(&hook_dummy) }`, and no trampoline
installed with the native core yet. -/
def initialGlobals : Globals :=
  { initialized := false, hook := HookSlot.dummy, nativeHookInstalled := false }

/-- A ROM path argument, as `init` inspects it: `toStr` is the result of
`Path::as_os_str().to_str()` — `none` when the path is not valid UTF-8,
otherwise the path's bytes.  `CString::new` then fails exactly when those
bytes contain an interior NUL. -/
structure RomPath where
  toStr : Option (List Nat)
  deriving DecidableEq, Repr

/-- The native calls `init` can make, recorded in order. -/
inductive NativeCall where
  | fceuxInit (pathBytes : List Nat)
  | hookBeforeExec
  deriving DecidableEq, Repr

/-- `pub fn init(path_rom) -> Result<()>` (`src/src/lib.rs:84-112`),
parametrized by the status `fceux_init` would return.  The result carries
the `Result`, the globals after the call, and the list of native calls
made, in order. -/
def init (g : Globals) (path : RomPath) (nativeInitStatus : Int) :
    Except String Unit × Globals × List NativeCall :=
  if g.initialized then
    (Except.error "already initialized", g, [])
  else
    match path.toStr with
    | none => (Except.error "OsStr::to_str() failed", g, [])
    | some bytes =>
      if bytes.contains 0 then
        (Except.error "CString::new() failed", g, [])
      else if nativeInitStatus == 0 then
        (Except.error "fceux_init() failed", g, [NativeCall.fceuxInit bytes])
      else
        (Except.ok (),
         { g with initialized := true, nativeHookInstalled := true },
         [NativeCall.fceuxInit bytes, NativeCall.hookBeforeExec])

/-- `pub fn was_init() -> bool`. -/
def was_init (g : Globals) : Bool := g.initialized

/-- The Rust cast `soundbuf_size as usize` on an `i32` value: the two's
complement bits are reinterpreted at 64-bit width. -/
def usizeOfI32 (n : Int) : Nat := (n % 2 ^ 64).toNat

/-- What one `fceux_run_frame` call produces: the pixel-buffer bytes the
returned `xbuf` pointer addresses, the samples the returned `soundbuf`
pointer addresses, the reported `soundbuf_size` (an `i32`), and the
addresses at which the native core invokes the installed before-exec hook
during the call, in order. -/
structure NativeFrameResult where
  xbuf : Nat → Nat
  soundbuf : Nat → Int
  soundbufSize : Int
  hookAddrs : List Nat

/-- The observable events of one `run_frame` call, in order: each hook
invocation reaching the caller-supplied closure, and each invocation of
the `f_video_sound` callback with its two borrowed buffers. -/
inductive FrameEvent where
  | hookCall (addr : Nat)
  | videoSound (xbuf : List Nat) (soundbuf : List Int)
  deriving DecidableEq, Repr

/-- `pub fn run_frame(joy1, joy2, f_video_sound, f_hook)`
(`src/src/lib.rs:131-154`): installs `f_hook` in the `HOOK` slot, calls
`fceux_run_frame` (during which the native core invokes the trampoline at
each of `res.hookAddrs`), builds the two slices
(`from_raw_parts(xbuf, 256 * 240)` and
`from_raw_parts(soundbuf, soundbuf_size as usize)`), invokes
`f_video_sound` on them, and finally restores `hook_dummy` in the slot.
Returns the globals after the call and the event trace. -/
def run_frame (g : Globals) (joy1 joy2 : Nat) (hookId : Nat)
    (res : NativeFrameResult) : Globals × List FrameEvent :=
  let g1 : Globals := { g with hook := HookSlot.user hookId }
  let hookEvents := res.hookAddrs.map FrameEvent.hookCall
  let xbuf := (List.range (256 * 240)).map res.xbuf
  let soundbuf := (List.range (usizeOfI32 res.soundbufSize)).map res.soundbuf
  let events := hookEvents ++ [FrameEvent.videoSound xbuf soundbuf]
  let _ := joy1
  let _ := joy2
  ({ g1 with hook := HookSlot.dummy }, events)

/-- The wrapper's `Snapshot` type: owns the non-null handle
`fceux_snapshot_create` returned. -/
structure Snapshot where
  snap : Nat
  deriving DecidableEq, Repr

/-- `Snapshot::new` (`src/src/lib.rs:222-229`): `nativeHandle` is the raw
pointer `fceux_snapshot_create()` returned, `none` standing for null.  A
null handle panics (`panic!("out of memory")`, modelled as `none`); a
non-null handle is wrapped and owned. -/
def Snapshot.new (nativeHandle : Option Nat) : Option Snapshot :=
  match nativeHandle with
  | none => none
  | some h => some { snap := h }

/-- `pub fn snapshot_create() -> Snapshot`. -/
def snapshot_create (nativeHandle : Option Nat) : Option Snapshot :=
  Snapshot.new nativeHandle

/-- `pub fn snapshot_load(snap) -> Result<()>` (`src/src/lib.rs:176-182`),
parametrized by the status `fceux_snapshot_load` returns. -/
def snapshot_load (snap : Snapshot) (status : Int) : Except String Unit :=
  let _ := snap
  if status == 0 then Except.error "fceux_snapshot_load() failed"
  else Except.ok ()

/-- `pub fn snapshot_save(snap) -> Result<()>` (`src/src/lib.rs:184-190`),
parametrized by the status `fceux_snapshot_save` returns. -/
def snapshot_save (snap : Snapshot) (status : Int) : Except String Unit :=
  let _ := snap
  if status == 0 then Except.error "fceux_snapshot_save() failed"
  else Except.ok ()

/-- `pub fn sound_set_freq(freq) -> Result<()>` (`src/src/lib.rs:202-208`),
parametrized by the status `fceux_sound_set_freq` returns. -/
def sound_set_freq (freq : Int) (status : Int) : Except String Unit :=
  let _ := freq
  if status == 0 then Except.error "fceux_sound_set_freq() failed"
  else Except.ok ()

/-- `pub enum MemoryDomain { Cpu = FCEUX_MEMORY_CPU }`. -/
inductive MemoryDomain where
  | Cpu
  deriving DecidableEq, Repr

/-- Modelled from the spec: the native core's emulator state (the libfceux
C++ sources built by `libfceux-sys/build.rs` are not under `src/`).  Per
spec §3/§4.4 it has memory domains — the CPU address space at minimum,
modelled as `mem` — and further global emulation state (CPU/PPU/APU,
mappers), collapsed into the opaque `rest`.  `snapStore` maps each live
snapshot handle to the full state its buffer holds, `none` while the
buffer holds no valid saved state. -/
structure NativeCore where
  mem : Nat → Nat
  rest : Nat
  snapStore : Nat → Option ((Nat → Nat) × Nat)

/-- Modelled from the spec: `fceux_mem_read` is a direct peek into the
named domain (only `Cpu` exists), no validation. -/
def nativeMemRead (c : NativeCore) (addr : Nat) (domain : MemoryDomain) : Nat :=
  let _ := domain
  c.mem addr

/-- Modelled from the spec: `fceux_snapshot_save` "captures current
emulator state into the snapshot, overwriting its prior contents", with a
zero status and unchanged state when the native core rejects the
operation (`ok = false`). -/
def nativeSnapshotSave (c : NativeCore) (h : Nat) (ok : Bool) :
    Int × NativeCore :=
  if ok then
    (1, { c with
          snapStore := fun h2 =>
            if h2 = h then some (c.mem, c.rest) else c.snapStore h2 })
  else (0, c)

/-- Modelled from the spec: `fceux_snapshot_load` "restores emulator state
from the snapshot's current contents; fails if the native core reports the
buffer is invalid or incompatible" — a zero status and unchanged state
when the buffer holds nothing valid or the core rejects it (`ok = false`). -/
def nativeSnapshotLoad (c : NativeCore) (h : Nat) (ok : Bool) :
    Int × NativeCore :=
  match c.snapStore h, ok with
  | some st, true => (1, { c with mem := st.1, rest := st.2 })
  | _, _ => (0, c)

/-- `pub fn mem_read(addr, domain) -> u8` over the modelled native core. -/
def mem_read (addr : Nat) (domain : MemoryDomain) (c : NativeCore) : Nat :=
  nativeMemRead c addr domain

/-- `snapshot_save` composed with the modelled native call: the wrapper
passes `snap.snap` to `fceux_snapshot_save` and checks the status. -/
def snapshot_save_c (c : NativeCore) (snap : Snapshot) (ok : Bool) :
    Except String Unit × NativeCore :=
  let r := nativeSnapshotSave c snap.snap ok
  (snapshot_save snap r.1, r.2)

/-- `snapshot_load` composed with the modelled native call: the wrapper
passes `snap.snap` to `fceux_snapshot_load` and checks the status. -/
def snapshot_load_c (c : NativeCore) (snap : Snapshot) (ok : Bool) :
    Except String Unit × NativeCore :=
  let r := nativeSnapshotLoad c snap.snap ok
  (snapshot_load snap r.1, r.2)

/-- One call to one public operation of the wrapper, each carrying the
values the native core would hand back during it.  This enumerates the
whole public surface of `src/src/lib.rs`; there is no teardown operation
among them (`fceux_quit` is declared in `libfceux-sys` but never called,
and the `init` doc comment states teardown is unsupported). -/
inductive Op where
  | opInit (path : RomPath) (nativeStatus : Int)
  | opWasInit
  | opPower
  | opReset
  | opRunFrame (joy1 joy2 hookId : Nat) (res : NativeFrameResult)
  | opRegP (nativeP : Nat)
  | opMemRead (addr : Nat) (domain : MemoryDomain)
  | opMemWrite (addr : Nat) (value : Nat) (domain : MemoryDomain)
  | opSnapshotCreate (nativeHandle : Option Nat)
  | opSnapshotLoad (snap : Snapshot) (status : Int)
  | opSnapshotSave (snap : Snapshot) (status : Int)
  | opVideoGetPalette (idx : Nat)
  | opSoundSetFreq (freq : Int) (status : Int)
  | opSnapshotDrop (snap : Snapshot)

/-- How each public operation updates the wrapper's globals.  Only `init`
writes `INITIALIZED` and only `run_frame` writes the `HOOK` slot; every
other operation is a passthrough to the native core and leaves the
statics untouched. -/
def step (g : Globals) : Op → Globals
  | Op.opInit path status => (init g path status).2.1
  | Op.opWasInit => g
  | Op.opPower => g
  | Op.opReset => g
  | Op.opRunFrame joy1 joy2 hookId res => (run_frame g joy1 joy2 hookId res).1
  | Op.opRegP _ => g
  | Op.opMemRead _ _ => g
  | Op.opMemWrite _ _ _ => g
  | Op.opSnapshotCreate _ => g
  | Op.opSnapshotLoad _ _ => g
  | Op.opSnapshotSave _ _ => g
  | Op.opVideoGetPalette _ => g
  | Op.opSoundSetFreq _ _ => g
  | Op.opSnapshotDrop _ => g

/-- The globals after a sequence of public operations. -/
def steps (g : Globals) (ops : List Op) : Globals := ops.foldl step g

/-- `true` exactly on the `f_video_sound` callback event. -/
def FrameEvent.isVideoSound : FrameEvent → Bool
  | FrameEvent.videoSound _ _ => true
  | FrameEvent.hookCall _ => false

set_option maxRecDepth 4096 in
/-- C10: for every 8-bit status-register byte wrapped in `RegP`, `carry`
returns exactly bit 0 of the byte, `zero` bit 1, `overflow` bit 6 and
`negative` bit 7, each true iff the corresponding bit is set. -/
theorem regP_flag_bits (p : Fin 256) :
    (reg_p p.val).carry = p.val.testBit 0 ∧
    (reg_p p.val).zero = p.val.testBit 1 ∧
    (reg_p p.val).overflow = p.val.testBit 6 ∧
    (reg_p p.val).negative = p.val.testBit 7 := by
  revert p
  decide

/-- C1: with the `INITIALIZED` flag set, `init` returns the
already-initialized (`AlreadyActive`) error immediately, makes no native
call at all, and leaves the globals unchanged. -/
theorem init_already_active (g : Globals) (path : RomPath) (status : Int)
    (h : g.initialized = true) :
    init g path status = (Except.error "already initialized", g, []) := by
  simp [init, h]

/-- Witness for C1 at a concrete live state. -/
theorem init_already_active_witness :
    init { initialized := true, hook := HookSlot.dummy,
           nativeHookInstalled := true } { toStr := some [65] } 1
      = (Except.error "already initialized",
         { initialized := true, hook := HookSlot.dummy,
           nativeHookInstalled := true }, []) :=
  init_already_active _ _ _ rfl

/-- C7: `snapshot_create` panics (modelled `none`) exactly when the native
allocation returns a null handle, never reports a recoverable error value
(its type carries no error case), and on a non-null handle returns a
`Snapshot` owning exactly that handle. -/
theorem snapshot_create_panics_iff_null :
    (∀ h : Option Nat, snapshot_create h = none ↔ h = none) ∧
    (∀ n : Nat, snapshot_create (some n) = some { snap := n }) := by
  constructor
  · intro h
    cases h <;> simp [snapshot_create, Snapshot.new]
  · intro n
    rfl

/-- Witness for C7 at a null and a non-null native handle. -/
theorem snapshot_create_panics_iff_null_witness :
    snapshot_create none = none ∧ snapshot_create (some 5) = some { snap := 5 } :=
  ⟨(snapshot_create_panics_iff_null.1 none).mpr rfl,
   snapshot_create_panics_iff_null.2 5⟩

/-- C4: each status-returning wrapper operation (`init` once it reaches
the native call, `snapshot_load`, `snapshot_save`, `sound_set_freq`)
succeeds exactly when the native status code is nonzero — zero status is
the only error case. -/
theorem status_zero_iff_error :
    (∀ (g : Globals) (path : RomPath) (bytes : List Nat) (status : Int),
        g.initialized = false → path.toStr = some bytes →
        bytes.contains 0 = false →
        (((init g path status).1 = Except.ok ()) ↔ ¬status = 0)) ∧
    (∀ (snap : Snapshot) (status : Int),
        (snapshot_load snap status = Except.ok ()) ↔ ¬status = 0) ∧
    (∀ (snap : Snapshot) (status : Int),
        (snapshot_save snap status = Except.ok ()) ↔ ¬status = 0) ∧
    (∀ (freq status : Int),
        (sound_set_freq freq status = Except.ok ()) ↔ ¬status = 0) := by
  refine ⟨?_, ?_, ?_, ?_⟩
  · intro g path bytes status h1 h2 h3
    have h3' : ¬0 ∈ bytes := by simpa using h3
    by_cases hs : status = 0 <;> simp [init, h1, h2, h3', hs]
  · intro snap status
    by_cases hs : status = 0 <;> simp [snapshot_load, hs]
  · intro snap status
    by_cases hs : status = 0 <;> simp [snapshot_save, hs]
  · intro freq status
    by_cases hs : status = 0 <;> simp [sound_set_freq, hs]

/-- Witness for C4 at concrete statuses: nonzero succeeds, zero fails. -/
theorem status_zero_iff_error_witness :
    (init initialGlobals { toStr := some [65] } 5).1 = Except.ok () ∧
    snapshot_load { snap := 1 } 2 = Except.ok () ∧
    ¬snapshot_save { snap := 1 } 0 = Except.ok () ∧
    sound_set_freq 44100 1 = Except.ok () := by
  refine ⟨?_, ?_, ?_, ?_⟩
  · exact (status_zero_iff_error.1 initialGlobals _ [65] 5 rfl rfl rfl).mpr
      (by decide)
  · exact (status_zero_iff_error.2.1 { snap := 1 } 2).mpr (by decide)
  · intro h
    exact (status_zero_iff_error.2.2.1 { snap := 1 } 0).mp h rfl
  · exact (status_zero_iff_error.2.2.2 44100 1).mpr (by decide)

/-- C8: a path that is not valid UTF-8, or whose bytes contain an interior
NUL, makes `init` fail with the `InvalidPath`-class error before any native
call; and every `init` failure leaves the globals — the `INITIALIZED` flag
and whether a hook is installed with the native core — unchanged. -/
theorem init_invalid_path_and_failure_state :
    (∀ (g : Globals) (path : RomPath) (status : Int),
        g.initialized = false → path.toStr = none →
        init g path status = (Except.error "OsStr::to_str() failed", g, [])) ∧
    (∀ (g : Globals) (path : RomPath) (bytes : List Nat) (status : Int),
        g.initialized = false → path.toStr = some bytes →
        bytes.contains 0 = true →
        init g path status = (Except.error "CString::new() failed", g, [])) ∧
    (∀ (g : Globals) (path : RomPath) (status : Int) (e : String),
        (init g path status).1 = Except.error e →
        (init g path status).2.1 = g) := by
  refine ⟨?_, ?_, ?_⟩
  · intro g path status h1 h2
    simp [init, h1, h2]
  · intro g path bytes status h1 h2 h3
    have h3' : 0 ∈ bytes := by simpa using h3
    simp [init, h1, h2, h3']
  · intro g path status e h
    by_cases h1 : g.initialized
    · simp [init, h1]
    · rcases h2 : path.toStr with _ | bytes
      · simp [init, h1, h2]
      · by_cases h3 : 0 ∈ bytes
        · simp [init, h1, h2, h3]
        · by_cases hs : status = 0
          · simp [init, h1, h2, h3, hs]
          · simp [init, h1, h2, h3, hs] at h

/-- Witness for C8: a non-UTF-8 path, a path with an interior NUL, and a
native-rejected ROM all fail and leave the globals unchanged. -/
theorem init_invalid_path_and_failure_state_witness :
    init initialGlobals { toStr := none } 1
      = (Except.error "OsStr::to_str() failed", initialGlobals, []) ∧
    init initialGlobals { toStr := some [65, 0, 66] } 1
      = (Except.error "CString::new() failed", initialGlobals, []) ∧
    (init initialGlobals { toStr := some [65] } 0).2.1 = initialGlobals := by
  refine ⟨?_, ?_, ?_⟩
  · exact init_invalid_path_and_failure_state.1 initialGlobals _ 1 rfl rfl
  · exact init_invalid_path_and_failure_state.2.1 initialGlobals _ [65, 0, 66] 1
      rfl rfl rfl
  · exact init_invalid_path_and_failure_state.2.2 initialGlobals _ 0
      "fceux_init() failed" rfl

/-- C2: `run_frame` (whose return type carries no error case) invokes the
frame callback exactly once, and that invocation receives a pixel buffer
of exactly 256 × 240 entries and an audio buffer whose length is the
sample count the native frame step reported. -/
theorem run_frame_callback_once (g : Globals) (joy1 joy2 hookId : Nat)
    (res : NativeFrameResult) (h0 : 0 ≤ res.soundbufSize)
    (h1 : res.soundbufSize < 2 ^ 31) :
    ((run_frame g joy1 joy2 hookId res).2.countP FrameEvent.isVideoSound) = 1 ∧
    ∀ xb sb, FrameEvent.videoSound xb sb ∈ (run_frame g joy1 joy2 hookId res).2 →
      xb.length = 256 * 240 ∧ sb.length = res.soundbufSize.toNat := by
  have hsz : usizeOfI32 res.soundbufSize = res.soundbufSize.toNat := by
    unfold usizeOfI32
    rw [Int.emod_eq_of_lt h0 (lt_trans h1 (by norm_num))]
  constructor
  · simp [run_frame, List.countP_append, List.countP_map, Function.comp_def,
      FrameEvent.isVideoSound, List.countP_cons]
  · intro xb sb hmem
    simp only [run_frame, List.mem_append, List.mem_map, List.mem_singleton] at hmem
    rcases hmem with ⟨a, _, ha⟩ | heq
    · exact absurd ha (by simp)
    · obtain ⟨hxb, hsb⟩ := FrameEvent.videoSound.inj heq.symm
      constructor
      · simp [← hxb]
      · simp [← hsb, hsz]

/-- Witness for C2 at a concrete frame result with a zero sample count. -/
theorem run_frame_callback_once_witness :
    ((run_frame initialGlobals 0 0 0
        { xbuf := fun _ => 0, soundbuf := fun _ => 0, soundbufSize := 0,
          hookAddrs := [] }).2.countP FrameEvent.isVideoSound) = 1 :=
  (run_frame_callback_once initialGlobals 0 0 0 _ (by decide) (by decide)).1

/-- Hook-slot effect of a single public operation: no operation leaves a
user hook behind in the `HOOK` slot. -/
theorem step_hook_dummy (g : Globals) (op : Op)
    (h : g.hook = HookSlot.dummy) : (step g op).hook = HookSlot.dummy := by
  cases op with
  | opInit path status =>
    by_cases h1 : g.initialized
    · simp [step, init, h1, h]
    · rcases h2 : path.toStr with _ | bytes
      · simp [step, init, h1, h2, h]
      · by_cases h3 : 0 ∈ bytes
        · simp [step, init, h1, h2, h3, h]
        · by_cases hs : status = 0 <;> simp [step, init, h1, h2, h3, hs, h]
  | opRunFrame joy1 joy2 hookId res => simp [step, run_frame]
  | _ => simpa [step] using h

/-- C9: `run_frame` always restores the dummy hook in the global `HOOK`
slot before returning, the slot starts out holding the dummy hook, and the
`HOOK = dummy` invariant holds outside any `run_frame` call — after every
sequence of public operations — so a native hook invocation outside
`run_frame` can never reach a previously supplied closure. -/
theorem hook_dummy_outside_run_frame :
    (∀ (g : Globals) (joy1 joy2 hookId : Nat) (res : NativeFrameResult),
        ((run_frame g joy1 joy2 hookId res).1).hook = HookSlot.dummy) ∧
    initialGlobals.hook = HookSlot.dummy ∧
    (∀ (g : Globals) (ops : List Op), g.hook = HookSlot.dummy →
        (steps g ops).hook = HookSlot.dummy) := by
    refine ⟨fun g joy1 joy2 hookId res => by simp [run_frame], rfl, ?_⟩
    intro g ops
    induction ops generalizing g with
    | nil => intro h; simpa [steps] using h
    | cons op rest ih =>
      intro h
      have := step_hook_dummy g op h
      simpa [steps, List.foldl_cons] using ih (step g op) this

/-- Witness for C9: the invariant evaluated after a concrete operation
sequence from the initial globals. -/
theorem hook_dummy_outside_run_frame_witness :
    (steps initialGlobals
        [Op.opInit { toStr := some [65] } 1,
         Op.opRunFrame 0 0 7
           { xbuf := fun _ => 0, soundbuf := fun _ => 0, soundbufSize := 0,
             hookAddrs := [3] }]).hook = HookSlot.dummy :=
  hook_dummy_outside_run_frame.2.2 initialGlobals _ rfl

/-- No public operation ever clears the `INITIALIZED` flag: `init` only
sets it and everything else leaves it alone. -/
theorem step_initialized_mono (g : Globals) (op : Op)
    (h : g.initialized = true) : (step g op).initialized = true := by
  cases op with
  | opInit path status => simp [step, init, h]
  | opRunFrame joy1 joy2 hookId res => simpa [step, run_frame] using h
  | _ => simpa [step] using h

/-- The `INITIALIZED` flag survives every sequence of public operations. -/
theorem steps_initialized_mono (g : Globals) (ops : List Op)
    (h : g.initialized = true) : (steps g ops).initialized = true := by
  induction ops generalizing g with
  | nil => simpa [steps] using h
  | cons op rest ih =>
    simpa [steps, List.foldl_cons] using ih (step g op) (step_initialized_mono g op h)

/-- C3 counterexample: the wrapper has no destroy operation — starting
from a live state, no sequence of public operations ever clears the
`INITIALIZED` flag, so the exclusivity token is never released. -/
theorem no_op_releases_exclusivity :
    ¬∃ ops : List Op,
        (steps { initialized := true, hook := HookSlot.dummy,
                 nativeHookInstalled := true } ops).initialized = false := by
  rintro ⟨ops, h⟩
  have hmono := steps_initialized_mono
    { initialized := true, hook := HookSlot.dummy, nativeHookInstalled := true }
    ops rfl
  rw [hmono] at h
  exact Bool.noConfusion h

/-- C3 as amended: the wrapper supports no teardown (`fceux_quit` is never
called and the `init` doc comment says teardown is unsupported), so after
a successful `init` every later `init` call — whatever public operations
happen in between — fails with the already-initialized (`AlreadyActive`)
error. -/
theorem init_after_any_ops_still_fails (g : Globals) (ops : List Op)
    (path : RomPath) (status : Int) (h : g.initialized = true) :
    (init (steps g ops) path status).1 = Except.error "already initialized" := by
  have h2 := steps_initialized_mono g ops h
  simp [init, h2]

/-- Witness for the amended C3 at a concrete live state and operation
sequence. -/
theorem init_after_any_ops_still_fails_witness :
    (init (steps { initialized := true, hook := HookSlot.dummy,
                   nativeHookInstalled := true }
            [Op.opPower, Op.opSnapshotCreate (some 1)])
        { toStr := some [65] } 1).1
      = Except.error "already initialized" :=
  init_after_any_ops_still_fails _ _ _ _ rfl

/-- C6: within one `run_frame` call every hook invocation event occurs
strictly before the `f_video_sound` callback event — the native frame
step, during which all hook invocations happen, returns before the
wrapper invokes the callback. -/
theorem run_frame_hook_precedes_callback (g : Globals)
    (joy1 joy2 hookId : Nat) (res : NativeFrameResult) (i j a : Nat)
    (xb : List Nat) (sb : List Int)
    (hi : (run_frame g joy1 joy2 hookId res).2[i]?
            = some (FrameEvent.hookCall a))
    (hj : (run_frame g joy1 joy2 hookId res).2[j]?
            = some (FrameEvent.videoSound xb sb)) :
    i < j := by
  have hev : (run_frame g joy1 joy2 hookId res).2
      = res.hookAddrs.map FrameEvent.hookCall
        ++ [FrameEvent.videoSound
              ((List.range (256 * 240)).map res.xbuf)
              ((List.range (usizeOfI32 res.soundbufSize)).map res.soundbuf)] :=
    rfl
  rw [hev] at hi hj
  have hlen : (res.hookAddrs.map FrameEvent.hookCall).length
      = res.hookAddrs.length := List.length_map _ _
  have hj' : j = res.hookAddrs.length := by
    by_cases hcase : j < (res.hookAddrs.map FrameEvent.hookCall).length
    · exfalso
      rw [List.getElem?_append_left hcase, List.getElem?_map] at hj
      rcases hb : res.hookAddrs[j]? with _ | b <;> rw [hb] at hj <;> simp at hj
    · push_neg at hcase
      rw [List.getElem?_append_right hcase] at hj
      by_cases hz : j - (res.hookAddrs.map FrameEvent.hookCall).length = 0
      · omega
      · exfalso
        rw [List.getElem?_eq_none (by simpa using Nat.one_le_iff_ne_zero.mpr hz)]
          at hj
        exact Option.noConfusion hj
  have hi' : i < res.hookAddrs.length := by
    by_cases hcase : i < (res.hookAddrs.map FrameEvent.hookCall).length
    · omega
    · exfalso
      push_neg at hcase
      rw [List.getElem?_append_right hcase] at hi
      by_cases hz : i - (res.hookAddrs.map FrameEvent.hookCall).length = 0
      · rw [hz] at hi
        simp at hi
      · rw [List.getElem?_eq_none (by simpa using Nat.one_le_iff_ne_zero.mpr hz)]
          at hi
        exact Option.noConfusion hi
  omega

/-- Witness for C6: a concrete frame with one hook invocation — the hook
event sits at index 0, the callback event at index 1. -/
theorem run_frame_hook_precedes_callback_witness :
    (run_frame initialGlobals 0 0 0
        { xbuf := fun _ => 0, soundbuf := fun _ => 0, soundbufSize := 0,
          hookAddrs := [3] }).2[0]? = some (FrameEvent.hookCall 3) ∧
    (0 : Nat) < 1 := by
  refine ⟨rfl, ?_⟩
  exact run_frame_hook_precedes_callback initialGlobals 0 0 0
    { xbuf := fun _ => 0, soundbuf := fun _ => 0, soundbufSize := 0,
      hookAddrs := [3] } 0 1 3
    ((List.range (256 * 240)).map (fun _ => 0))
    ((List.range (usizeOfI32 0)).map (fun _ => 0)) rfl rfl

/-- C5: a successful `snapshot_save` followed immediately by a successful
`snapshot_load` of the same snapshot, with no frame steps in between,
restores identical memory-domain contents: `mem_read` of every 16-bit CPU
address afterwards equals `mem_read` of that address before the save. -/
theorem snapshot_save_load_roundtrip (c : NativeCore) (snap : Snapshot)
    (okS okL : Bool) (addr : Nat) (ha : addr < 65536)
    (hs : (snapshot_save_c c snap okS).1 = Except.ok ())
    (hl : (snapshot_load_c (snapshot_save_c c snap okS).2 snap okL).1
            = Except.ok ()) :
    mem_read addr MemoryDomain.Cpu
        (snapshot_load_c (snapshot_save_c c snap okS).2 snap okL).2
      = mem_read addr MemoryDomain.Cpu c := by
  cases okS with
  | false => simp [snapshot_save_c, nativeSnapshotSave, snapshot_save] at hs
  | true =>
    cases okL with
    | false =>
      simp [snapshot_load_c, nativeSnapshotLoad, snapshot_load,
        snapshot_save_c, nativeSnapshotSave] at hl
    | true =>
      simp [mem_read, nativeMemRead, snapshot_load_c, nativeSnapshotLoad,
        snapshot_save_c, nativeSnapshotSave, snapshot_load, snapshot_save]

/-- Witness for C5 at a concrete core, snapshot handle and address. -/
theorem snapshot_save_load_roundtrip_witness :
    mem_read 0 MemoryDomain.Cpu
        (snapshot_load_c
          (snapshot_save_c
            { mem := fun _ => 7, rest := 0, snapStore := fun _ => none }
            { snap := 1 } true).2
          { snap := 1 } true).2
      = mem_read 0 MemoryDomain.Cpu
          { mem := fun _ => 7, rest := 0, snapStore := fun _ => none } :=
  snapshot_save_load_roundtrip
    { mem := fun _ => 7, rest := 0, snapStore := fun _ => none }
    { snap := 1 } true true 0 (by norm_num) rfl rfl

end Fceux
